import Mathlib

/-!
Shallow embedding of src/GoogleTrends.py (a thin wrapper around the
pytrends Google Trends client plus pandas reshaping).

Modelling conventions:
* A pandas DataFrame is a row-label list (the index) plus a list of named
  columns; a cell is an optional string (none models NaN / an unset cell).
* Python exceptions are Except PyErr; a Python function that can return
  None yields Option DataFrame.
* print output is collected as a list of notice strings.
* The external pytrends client is modelled as a log of issued calls
  (ClientCall); each wrapper operation takes the client response for the
  call it issues as an explicit argument and appends the issued call(s) to
  the log.  The config fields of the session mirror the attributes set in
  GoogleTrends.__init__.
-/

set_option linter.unusedVariables false

namespace GTrends

/-- A cell value of a table; none models pandas NaN / an unset cell. -/
abbrev Cell := String

/-- A pandas DataFrame: row labels (the index) and named columns.
Each column is a name with its list of cells. -/
structure DataFrame where
  index : List Cell
  cols : List (String × List (Option Cell))
deriving Repr, DecidableEq

/-- Python exception kinds raised by the modelled code paths. -/
inductive PyErr where
  | keyError (k : String)
  | valueError (msg : String)
  | attributeError (msg : String)
  | indexError
deriving Repr, DecidableEq

/-- pandas df.empty: true when any axis has length 0 (no rows or no columns). -/
def DataFrame.emptyDF (df : DataFrame) : Bool :=
  df.index.isEmpty || df.cols.isEmpty

/-- Number of rows of a DataFrame (length of its index). -/
def DataFrame.nrows (df : DataFrame) : Nat :=
  df.index.length

/-- The list of column names, in order. -/
def DataFrame.colNames (df : DataFrame) : List String :=
  df.cols.map Prod.fst

/-- Look up a column by name (first occurrence). -/
def DataFrame.getCol? (df : DataFrame) (n : String) : Option (List (Option Cell)) :=
  (df.cols.find? (fun c => c.1 = n)).map Prod.snd

/-- Well-formedness: every column has as many cells as there are rows. -/
def DataFrame.wfb (df : DataFrame) : Bool :=
  df.cols.all (fun c => c.2.length = df.index.length)

/-- pandas df[name] = vals: replace the column in place when the name exists,
otherwise append it on the right.  Models the index-aligned column assignment
on line 150 / 203 / 243 of src/GoogleTrends.py (the assigned frame carries the
same index, so alignment is the identity). -/
def DataFrame.setCol (df : DataFrame) (name : String) (vals : List (Option Cell)) : DataFrame :=
  if df.cols.any (fun c => c.1 = name) then
    { df with cols := df.cols.map (fun c => if c.1 = name then (name, vals) else c) }
  else
    { df with cols := df.cols ++ [(name, vals)] }

/-- pandas df.reset_index(drop=True): discard the row labels and replace them
with the positional labels 0, 1, 2, ... -/
def DataFrame.resetIndexDrop (df : DataFrame) : DataFrame :=
  { df with index := (List.range df.index.length).map (fun i => toString i) }

/-- Apply a rename mapping to one column name (unmapped names are kept). -/
def renameCol (m : List (String × String)) (n : String) : String :=
  match m.find? (fun p => p.1 = n) with
  | some p => p.2
  | none => n

/-- pandas df.rename(columns=m): rename column labels, leaving data unchanged. -/
def DataFrame.renameCols (df : DataFrame) (m : List (String × String)) : DataFrame :=
  { df with cols := df.cols.map (fun c => (renameCol m c.1, c.2)) }

/-- Pad a column with unset cells up to n rows. -/
def padCol (vals : List (Option Cell)) (n : Nat) : List (Option Cell) :=
  vals ++ List.replicate (n - vals.length) none

/-- pandas pd.concat([a, b], axis=1) for frames carrying the client's default
positional row labels (as the related_topics / related_queries sub-tables do):
columns are placed side by side, the row count is the maximum of the two, and
cells of the shorter frame are left unset. -/
def DataFrame.concatCols (a b : DataFrame) : DataFrame :=
  let n := max a.index.length b.index.length
  { index := (List.range n).map (fun i => toString i),
    cols := (a.cols ++ b.cols).map (fun c => (c.1, padCol c.2 n)) }

/-- pandas df.drop(names, axis=1): raises KeyError when any listed label is
missing, otherwise removes every column whose label is listed (all
occurrences of a duplicated label). -/
def DataFrame.dropCols (df : DataFrame) (names : List String) : Except PyErr DataFrame :=
  if names.all (fun n => df.cols.any (fun c => c.1 = n)) then
    Except.ok { df with cols := df.cols.filter (fun c => !(names.contains c.1)) }
  else
    Except.error (PyErr.keyError (String.intercalate ", " names))

/-- pd.DataFrame.from_dict on a list of records: columns are the record keys in
order of first appearance, one row per record, keys missing from a record give
an unset cell, and the index is positional. -/
def dfFromRecords (recs : List (List (String × Cell))) : DataFrame :=
  let names := recs.foldl
    (fun acc r => r.foldl
      (fun acc2 p => if acc2.contains p.1 then acc2 else acc2 ++ [p.1]) acc) []
  { index := (List.range recs.length).map (fun i => toString i),
    cols := names.map (fun n =>
      (n, recs.map (fun r => (r.find? (fun p => p.1 = n)).map Prod.snd))) }

/-- Python dict access d[k] on an association list: the value when the key is
present, KeyError otherwise. -/
def dictGet {α : Type} (d : List (String × α)) (k : String) : Except PyErr α :=
  match d.find? (fun p => p.1 = k) with
  | some p => Except.ok p.2
  | none => Except.error (PyErr.keyError k)

/-- The diagnostic printed by check_if_valid_data (line 8). -/
def noResultsNotice : String := "Google trends has returned no results."

/-- check_if_valid_data (lines 5-12): empty frame prints the notice and
returns False, otherwise returns True.  The second component collects what was
printed. -/
def check_if_valid_data (df : DataFrame) : Bool × List String :=
  if df.emptyDF then (false, [noResultsNotice]) else (true, [])

/-- The index-to-column promotion shared by interestOverTime (149-151),
historicalHourlyInterest (202-204) and interestByRegion (242-244):
copy, materialize the index as a named column, then reset the index. -/
def promoteIndex (df : DataFrame) (name : String) : DataFrame :=
  (df.setCol name (df.index.map some)).resetIndexDrop

/-- Python str.replace applied to a single character pair ('-' to ' '),
as on lines 177-178. -/
def pyReplaceDashSpace (str : String) : String :=
  String.mk (str.toList.map (fun c => if c = '-' then ' ' else c))

/-- Python str.strip(): drop leading and trailing whitespace. -/
def pyStrip (str : String) : String :=
  String.mk (((str.toList.dropWhile Char.isWhitespace).reverse.dropWhile
    Char.isWhitespace).reverse)

/-- Python str.split() with no separator: split on runs of whitespace,
discarding empty pieces. -/
def pySplitWSAux : List Char → List Char → List String
  | [], acc => if acc.isEmpty then [] else [String.mk acc.reverse]
  | c :: rest, acc =>
    if c.isWhitespace then
      if acc.isEmpty then pySplitWSAux rest []
      else String.mk acc.reverse :: pySplitWSAux rest []
    else pySplitWSAux rest (c :: acc)

/-- Python str.split() with no separator. -/
def pySplitWS (str : String) : List String :=
  pySplitWSAux str.toList []

/-- Python triple unpacking a, b, c = xs: ValueError unless xs has exactly
three elements. -/
def unpack3 (xs : List String) : Except PyErr (String × String × String) :=
  match xs with
  | [a, b, c] => Except.ok (a, b, c)
  | _ => Except.error (PyErr.valueError "unpack")

/-- Accumulate the decimal digits of a Python int literal body; none when the
character list is empty or holds a non-digit. -/
def pyIntCore (cs : List Char) : Option Nat :=
  if cs.isEmpty then none
  else cs.foldl
    (fun acc c => match acc with
      | none => none
      | some n => if c.isDigit then some (n * 10 + (c.toNat - 48)) else none)
    (some 0)

/-- Python int() on a string: optional surrounding whitespace, optional sign,
then decimal digits; ValueError otherwise. -/
def pyInt (str : String) : Except PyErr Int :=
  match (pyStrip str).toList with
  | '-' :: rest =>
    match pyIntCore rest with
    | some n => Except.ok (-(n : Int))
    | none => Except.error (PyErr.valueError str)
  | '+' :: rest =>
    match pyIntCore rest with
    | some n => Except.ok (n : Int)
    | none => Except.error (PyErr.valueError str)
  | cs =>
    match pyIntCore cs with
    | some n => Except.ok (n : Int)
    | none => Except.error (PyErr.valueError str)

/-- Lines 177-178: date.replace('-', ' ').strip().split() unpacked into the
three component strings. -/
def pyDateParts (d : String) : Except PyErr (String × String × String) :=
  unpack3 (pySplitWS (pyStrip (pyReplaceDashSpace d)))

/-- int() applied to each of the three date component strings, in the order
the call arguments are evaluated (year, month, day). -/
def pyInt3 (t : String × String × String) : Except PyErr (Int × Int × Int) :=
  match pyInt t.1 with
  | Except.error e => Except.error e
  | Except.ok y =>
    match pyInt t.2.1 with
    | Except.error e => Except.error e
    | Except.ok m =>
      match pyInt t.2.2 with
      | Except.error e => Except.error e
      | Except.ok d => Except.ok (y, m, d)

/-- A call issued against the external pytrends client, with the arguments
the wrapper passes. -/
inductive ClientCall where
  | trendReq (hl : String) (tz : Int) (retries : Nat)
      (timeoutConnect timeoutRead : Nat)
  | buildPayload (kw_list : List String) (cat : Int)
      (timeframe geo gprop : String)
  | interestOverTimeCall
  | getHistoricalInterest (kw_list : List String)
      (year_start month_start day_start hour_start : Int)
      (year_end month_end day_end hour_end : Int)
      (cat : Int) (geo gprop : String) (sleep : Int)
  | interestByRegionCall (resolution : String) (inc_low_vol inc_geo_code : Bool)
  | relatedTopicsCall
  | relatedQueriesCall
  | trendingSearchesCall (pn : String)
  | topChartsCall (year : Int) (geo : String)
  | suggestionsCall (keyword : String)
  | categoriesCall
deriving Repr, DecidableEq

/-- The GoogleTrends session state: the configuration attributes assigned in
__init__ (lines 112-117) plus the client handle, modelled as the log of calls
issued so far (the mutable per-call payload state). -/
structure GoogleTrends where
  keyword_list : List String
  timeframe : String
  geo : String
  host_language : String
  gprop : String
  category : Int
  pytrends : List ClientCall
deriving Repr, DecidableEq

/-- The immutable configuration view of a session. -/
def GoogleTrends.config (s : GoogleTrends) :
    List String × String × String × String × String × Int :=
  (s.keyword_list, s.timeframe, s.geo, s.host_language, s.gprop, s.category)

/-- GoogleTrends.__init__ (lines 110-126): store the configuration, connect
the client (TrendReq with tz=360, retries=2, timeout=(10,25)) and immediately
issue the build_payload request with the stored configuration.  No validation
of the keyword list is performed. -/
def GoogleTrends.init (keyword_list : List String) (timeframe geo host_language : String)
    (category : Int) (gprop : String) : GoogleTrends :=
  { keyword_list := keyword_list,
    timeframe := timeframe,
    geo := geo,
    host_language := host_language,
    gprop := gprop,
    category := category,
    pytrends := [ClientCall.trendReq host_language 360 2 10 25,
                 ClientCall.buildPayload keyword_list category timeframe geo gprop] }

/-- The outcome of one wrapper operation: the returned value (an uncaught
exception, or the Python return value, None modelled as none) together with
the notices printed during the call. -/
abbrev OpOut := Except PyErr (Option DataFrame) × List String

/-- GoogleTrends.interestOverTime (lines 128-154): fetch, validate, and on
success promote the datetime index to a column. -/
def GoogleTrends.interestOverTime (s : GoogleTrends) (resp : DataFrame) :
    OpOut × GoogleTrends :=
  let s' := { s with pytrends := s.pytrends ++ [ClientCall.interestOverTimeCall] }
  let v := check_if_valid_data resp
  (if v.1 then (Except.ok (some (promoteIndex resp "datetime")), v.2)
   else (Except.ok none, v.2), s')

/-- GoogleTrends.historicalHourlyInterest (lines 156-207): parse both dates
into their components (lines 177-178; the int() conversions happen while the
call arguments are evaluated), issue one get_historical_interest request with
sleep=0, fetch interest_over_time, validate, and promote the datetime index. -/
def GoogleTrends.historicalHourlyInterest (s : GoogleTrends)
    (start_date end_date : String) (hour_start hour_end : Int)
    (resp : DataFrame) : OpOut × GoogleTrends :=
  match pyDateParts start_date with
  | Except.error e => ((Except.error e, []), s)
  | Except.ok ps =>
    match pyDateParts end_date with
    | Except.error e => ((Except.error e, []), s)
    | Except.ok pe =>
      match pyInt3 ps with
      | Except.error e => ((Except.error e, []), s)
      | Except.ok (y1, m1, d1) =>
        match pyInt3 pe with
        | Except.error e => ((Except.error e, []), s)
        | Except.ok (y2, m2, d2) =>
          let s' := { s with pytrends := s.pytrends ++
            [ClientCall.getHistoricalInterest s.keyword_list
               y1 m1 d1 hour_start y2 m2 d2 hour_end
               s.category s.geo s.gprop 0,
             ClientCall.interestOverTimeCall] }
          let v := check_if_valid_data resp
          (if v.1 then (Except.ok (some (promoteIndex resp "datetime")), v.2)
           else (Except.ok none, v.2), s')

/-- GoogleTrends.interestByRegion (lines 209-247): fetch for the requested
resolution, validate, and promote the region-name index to a geoName column. -/
def GoogleTrends.interestByRegion (s : GoogleTrends) (region : String)
    (inc_low_vol inc_geo_code : Bool) (resp : DataFrame) :
    OpOut × GoogleTrends :=
  let s' := { s with pytrends := s.pytrends ++
    [ClientCall.interestByRegionCall region inc_low_vol inc_geo_code] }
  let v := check_if_valid_data resp
  (if v.1 then (Except.ok (some (promoteIndex resp "geoName")), v.2)
   else (Except.ok none, v.2), s')

/-- The rename mapping of lines 273-277. -/
def risingTopicRenames : List (String × String) :=
  [("value", "value_rising"), ("formattedValue", "formattedValue_rising"),
   ("hasData", "hasData_rising"), ("topic_title", "topic_title_rising"),
   ("topic_type", "topic_type_rising")]

/-- The rename mapping of lines 278-282. -/
def topTopicRenames : List (String × String) :=
  [("value", "value_top"), ("formattedValue", "formattedValue_top"),
   ("hasData", "hasData_top"), ("topic_title", "topic_title_top"),
   ("topic_type", "topic_type_top")]

/-- The response shape of pytrends related_topics / related_queries: a mapping
from keyword to a mapping with keys such as rising and top, each holding a
DataFrame or the Python value None (modelled as none). -/
abbrev RelatedResp := List (String × List (String × Option DataFrame))

/-- GoogleTrends.relatedTopics (lines 249-288): issue the client call, take the
rising and top sub-tables of the primary keyword (lines 269-270, outside the
try block, so a missing key raises), then inside try rename, concatenate
side by side and drop the link and topic_mid columns; any failure there is
caught and converted to the printed notice plus None. -/
def GoogleTrends.relatedTopics (s : GoogleTrends) (resp : RelatedResp) :
    OpOut × GoogleTrends :=
  (match s.keyword_list with
   | [] => (Except.error PyErr.indexError, [])
   | kw :: _ =>
     match dictGet resp kw with
     | Except.error e => (Except.error e, [])
     | Except.ok sub =>
       match dictGet sub "rising" with
       | Except.error e => (Except.error e, [])
       | Except.ok risingOpt =>
         match dictGet sub "top" with
         | Except.error e => (Except.error e, [])
         | Except.ok topOpt =>
           match risingOpt, topOpt with
           | some rising, some top =>
             let rising2 := rising.renameCols risingTopicRenames
             let top2 := top.renameCols topTopicRenames
             let df := top2.concatCols rising2
             match df.dropCols ["link", "topic_mid"] with
             | Except.ok d => (Except.ok (some d), [])
             | Except.error _ =>
               (Except.ok none, ["No results for Related topics"])
           | _, _ =>
             (Except.ok none, ["No results for Related topics"]),
   { s with pytrends := s.pytrends ++ [ClientCall.relatedTopicsCall] })

/-- GoogleTrends.relatedQueries (lines 290-320): same shape as relatedTopics
with the query/value rename of lines 314-315 and no column drop; the category
parameter is accepted but not used (related_queries() is called with no
arguments). -/
def GoogleTrends.relatedQueries (s : GoogleTrends) (category : Int)
    (resp : RelatedResp) : OpOut × GoogleTrends :=
  (match s.keyword_list with
   | [] => (Except.error PyErr.indexError, [])
   | kw :: _ =>
     match dictGet resp kw with
     | Except.error e => (Except.error e, [])
     | Except.ok sub =>
       match dictGet sub "rising" with
       | Except.error e => (Except.error e, [])
       | Except.ok risingOpt =>
         match dictGet sub "top" with
         | Except.error e => (Except.error e, [])
         | Except.ok topOpt =>
           match risingOpt, topOpt with
           | some rising, some top =>
             let rising2 := rising.renameCols
               [("query", "rising_query"), ("value", "rising_value")]
             let top2 := top.renameCols
               [("query", "top_query"), ("value", "top_value")]
             (Except.ok (some (top2.concatCols rising2)), [])
           | _, _ =>
             (Except.ok none, ["No results for Related queries"]),
   { s with pytrends := s.pytrends ++ [ClientCall.relatedQueriesCall] })

/-- GoogleTrends.trendingSearches (lines 322-344): fetch for the country,
validate, and return the table unchanged. -/
def GoogleTrends.trendingSearches (s : GoogleTrends) (country : String)
    (resp : DataFrame) : OpOut × GoogleTrends :=
  let s' := { s with pytrends := s.pytrends ++
    [ClientCall.trendingSearchesCall country] }
  let v := check_if_valid_data resp
  (if v.1 then (Except.ok (some resp), v.2) else (Except.ok none, v.2), s')

/-- GoogleTrends.topCharts (lines 346-368): fetch for the year with the
session geography, validate, and return the table unchanged. -/
def GoogleTrends.topCharts (s : GoogleTrends) (year : Int)
    (resp : DataFrame) : OpOut × GoogleTrends :=
  let s' := { s with pytrends := s.pytrends ++
    [ClientCall.topChartsCall year s.geo] }
  let v := check_if_valid_data resp
  (if v.1 then (Except.ok (some resp), v.2) else (Except.ok none, v.2), s')

/-- GoogleTrends.suggestions (lines 370-393): the primary keyword is read
while evaluating the call argument (IndexError before any client call when the
keyword list is empty), the returned records are built into a frame, the mid
column is dropped (raising KeyError when absent, e.g. for an empty record
list), and only then is the result validated. -/
def GoogleTrends.suggestions (s : GoogleTrends)
    (resp : List (List (String × Cell))) : OpOut × GoogleTrends :=
  match s.keyword_list with
  | [] => ((Except.error PyErr.indexError, []), s)
  | kw :: _ =>
    ((match (dfFromRecords resp).dropCols ["mid"] with
      | Except.error e => (Except.error e, [])
      | Except.ok suggestions_df =>
        let v := check_if_valid_data suggestions_df
        if v.1 then (Except.ok (some suggestions_df), v.2)
        else (Except.ok none, v.2)),
     { s with pytrends := s.pytrends ++ [ClientCall.suggestionsCall kw] })

/-- GoogleTrends.categories (lines 395-398): passthrough of the client's
category taxonomy, no validation. -/
def GoogleTrends.categoriesOp (s : GoogleTrends) (resp : List (String × Cell)) :
    List (String × Cell) × GoogleTrends :=
  (resp, { s with pytrends := s.pytrends ++ [ClientCall.categoriesCall] })

/-! Concrete sessions and responses used by witnesses and counterexamples. -/

/-- A session built as in the repository's intended use. -/
def gtEx : GoogleTrends := GoogleTrends.init ["Pizza"] "today 5-y" "US" "en-US" 0 ""

/-- A small non-empty interest table indexed by datetime. -/
def dfEx : DataFrame := ⟨["d1", "d2"], [("Pizza", [some "7", some "9"])]⟩

/-- The empty table (no rows, no columns). -/
def dfEmptyEx : DataFrame := ⟨[], []⟩

/-- A two-row top sub-table with the raw related-topics schema. -/
def topEx : DataFrame :=
  ⟨["0", "1"],
   [("value", [some "100", some "50"]), ("formattedValue", [some "100", some "50"]),
    ("hasData", [some "True", some "True"]), ("link", [some "l1", some "l2"]),
    ("topic_mid", [some "m1", some "m2"]), ("topic_title", [some "t1", some "t2"]),
    ("topic_type", [some "ty1", some "ty2"])]⟩

/-- A one-row rising sub-table with the raw related-topics schema. -/
def risingEx : DataFrame :=
  ⟨["0"],
   [("value", [some "9"]), ("formattedValue", [some "9"]),
    ("hasData", [some "True"]), ("link", [some "r1"]),
    ("topic_mid", [some "rm1"]), ("topic_title", [some "rt1"]),
    ("topic_type", [some "rty1"])]⟩

/-- A small non-empty interest-by-region table indexed by region name. -/
def dfRegionEx : DataFrame := ⟨["US-CA", "US-TX"], [("Pizza", [some "100", some "80"])]⟩

/-- A related response whose sub-mapping lacks the rising key. -/
def respMissingRising : RelatedResp := [("Pizza", [("top", some topEx)])]

/-- A related response whose sub-tables are both the Python value None. -/
def respNoneSub : RelatedResp := [("Pizza", [("rising", none), ("top", none)])]

/-- A well-formed related response for the primary keyword. -/
def respWellFormed : RelatedResp :=
  [("Pizza", [("rising", some risingEx), ("top", some topEx)])]

/-! Supporting lemmas about the modelled pandas operations. -/

theorem find?_assign_self {l : List (String × List (Option Cell))} {n : String}
    (vals : List (Option Cell)) (h : l.any (fun c => c.1 = n) = true) :
    (l.map (fun c => if c.1 = n then (n, vals) else c)).find? (fun c => c.1 = n) =
      some (n, vals) := by
  induction l with
  | nil => simp at h
  | cons c t ih =>
    by_cases hc : c.1 = n
    · rw [List.map_cons, if_pos hc, List.find?_cons_of_pos _ (by simp)]
    · have h' : (t.any fun c => decide (c.1 = n)) = true := by
        simpa [List.any_cons, hc] using h
      rw [List.map_cons, if_neg hc, List.find?_cons_of_neg _ (by simp [hc])]
      exact ih h'

theorem find?_assign_ne {l : List (String × List (Option Cell))} {n m : String}
    (hnm : m ≠ n) (vals : List (Option Cell)) :
    (l.map (fun c => if c.1 = n then (n, vals) else c)).find? (fun c => c.1 = m) =
      l.find? (fun c => c.1 = m) := by
  induction l with
  | nil => simp
  | cons c t ih =>
    by_cases hc : c.1 = n
    · rw [List.map_cons, if_pos hc, List.find?_cons_of_neg _ (by simp [Ne.symm hnm]),
        List.find?_cons_of_neg _ (by simp [hc, Ne.symm hnm]), ih]
    · by_cases hm : c.1 = m
      · rw [List.map_cons, if_neg hc, List.find?_cons_of_pos _ (by simp [hm]),
          List.find?_cons_of_pos _ (by simp [hm])]
      · rw [List.map_cons, if_neg hc, List.find?_cons_of_neg _ (by simp [hm]),
          List.find?_cons_of_neg _ (by simp [hm]), ih]

theorem find?_append_ne {l : List (String × List (Option Cell))} {n m : String}
    (hnm : m ≠ n) (vals : List (Option Cell)) :
    (l ++ [(n, vals)]).find? (fun c => c.1 = m) = l.find? (fun c => c.1 = m) := by
  induction l with
  | nil => simp [List.find?, Ne.symm hnm, hnm]
  | cons c t ih =>
    by_cases hc : c.1 = m
    · rw [List.cons_append, List.find?_cons_of_pos _ (by simp [hc]),
        List.find?_cons_of_pos _ (by simp [hc])]
    · rw [List.cons_append, List.find?_cons_of_neg _ (by simp [hc]),
        List.find?_cons_of_neg _ (by simp [hc]), ih]

theorem find?_append_self {l : List (String × List (Option Cell))} {n : String}
    (vals : List (Option Cell)) (h : l.any (fun c => c.1 = n) = false) :
    (l ++ [(n, vals)]).find? (fun c => c.1 = n) = some (n, vals) := by
  induction l with
  | nil => simp [List.find?]
  | cons c t ih =>
    simp only [List.any_cons, Bool.or_eq_false_iff] at h
    rw [List.cons_append, List.find?_cons_of_neg _ (by simp [h.1]), ih h.2]

theorem getCol?_setCol_self (df : DataFrame) (n : String) (vals : List (Option Cell)) :
    (df.setCol n vals).getCol? n = some vals := by
  unfold DataFrame.setCol DataFrame.getCol?
  by_cases h : df.cols.any (fun c => c.1 = n)
  · rw [if_pos h, find?_assign_self vals h]
    rfl
  · have hb : df.cols.any (fun c => c.1 = n) = false := by
      cases hany : df.cols.any (fun c => c.1 = n)
      · rfl
      · exact absurd hany h
    rw [if_neg h, find?_append_self vals hb]
    rfl

theorem getCol?_setCol_ne (df : DataFrame) {n m : String} (hnm : m ≠ n)
    (vals : List (Option Cell)) :
    (df.setCol n vals).getCol? m = df.getCol? m := by
  unfold DataFrame.setCol DataFrame.getCol?
  by_cases h : df.cols.any (fun c => c.1 = n)
  · simp only [if_pos h]
    rw [find?_assign_ne hnm vals]
  · simp only [if_neg h]
    rw [find?_append_ne hnm vals]

theorem getCol?_resetIndexDrop (df : DataFrame) (m : String) :
    df.resetIndexDrop.getCol? m = df.getCol? m := rfl

theorem nrows_resetIndexDrop (df : DataFrame) :
    df.resetIndexDrop.nrows = df.nrows := by
  simp [DataFrame.resetIndexDrop, DataFrame.nrows]

theorem index_setCol (df : DataFrame) (n : String) (vals : List (Option Cell)) :
    (df.setCol n vals).index = df.index := by
  unfold DataFrame.setCol
  by_cases h : df.cols.any (fun c => c.1 = n) <;> simp [h]

theorem promoteIndex_getCol_self (df : DataFrame) (n : String) :
    (promoteIndex df n).getCol? n = some (df.index.map some) := by
  rw [promoteIndex, getCol?_resetIndexDrop, getCol?_setCol_self]

theorem promoteIndex_getCol_ne (df : DataFrame) {n m : String} (hnm : m ≠ n) :
    (promoteIndex df n).getCol? m = df.getCol? m := by
  rw [promoteIndex, getCol?_resetIndexDrop, getCol?_setCol_ne df hnm]

theorem promoteIndex_nrows (df : DataFrame) (n : String) :
    (promoteIndex df n).nrows = df.nrows := by
  rw [promoteIndex, nrows_resetIndexDrop]
  simp [DataFrame.nrows, index_setCol]

/-! Claim theorems. -/

/-- C4: for every non-empty raw response, interestOverTime and
historicalHourlyInterest produce a table that contains a datetime column equal
to the raw response's datetime row key, with row count equal to the raw
response's row count and the original row ordering preserved (the datetime
column lists the row keys in their original order and every other column is
carried over unchanged). -/
theorem interest_datetime_column (s : GoogleTrends) (resp : DataFrame)
    (sd ed : String) (hs he : Int) (ps pe : String × String × String)
    (y1 m1 d1 y2 m2 d2 : Int)
    (hne : resp.emptyDF = false)
    (hp1 : pyDateParts sd = Except.ok ps) (hi1 : pyInt3 ps = Except.ok (y1, m1, d1))
    (hp2 : pyDateParts ed = Except.ok pe) (hi2 : pyInt3 pe = Except.ok (y2, m2, d2)) :
    (∃ d, (s.interestOverTime resp).1 = (Except.ok (some d), []) ∧
      d.getCol? "datetime" = some (resp.index.map some) ∧
      d.nrows = resp.nrows ∧
      ∀ m : String, m ≠ "datetime" → d.getCol? m = resp.getCol? m) ∧
    (∃ d, (s.historicalHourlyInterest sd ed hs he resp).1 = (Except.ok (some d), []) ∧
      d.getCol? "datetime" = some (resp.index.map some) ∧
      d.nrows = resp.nrows ∧
      ∀ m : String, m ≠ "datetime" → d.getCol? m = resp.getCol? m) := by
  constructor
  · refine ⟨promoteIndex resp "datetime", ?_, promoteIndex_getCol_self resp "datetime",
      promoteIndex_nrows resp "datetime", fun m hm => promoteIndex_getCol_ne resp hm⟩
    simp [GoogleTrends.interestOverTime, check_if_valid_data, hne]
  · refine ⟨promoteIndex resp "datetime", ?_, promoteIndex_getCol_self resp "datetime",
      promoteIndex_nrows resp "datetime", fun m hm => promoteIndex_getCol_ne resp hm⟩
    simp [GoogleTrends.historicalHourlyInterest, hp1, hp2, hi1, hi2,
      check_if_valid_data, hne]

/-- Witness for C4 at a concrete two-row response and the documented dates. -/
theorem interest_datetime_column_witness :
    dfEx.emptyDF = false ∧
    pyDateParts "2023-01-01" = Except.ok ("2023", "01", "01") ∧
    pyInt3 ("2023", "01", "01") = Except.ok (2023, 1, 1) ∧
    pyDateParts "2023-01-02" = Except.ok ("2023", "01", "02") ∧
    pyInt3 ("2023", "01", "02") = Except.ok (2023, 1, 2) ∧
    ((∃ d, (gtEx.interestOverTime dfEx).1 = (Except.ok (some d), []) ∧
      d.getCol? "datetime" = some (dfEx.index.map some) ∧
      d.nrows = dfEx.nrows ∧
      ∀ m : String, m ≠ "datetime" → d.getCol? m = dfEx.getCol? m) ∧
     (∃ d, (gtEx.historicalHourlyInterest "2023-01-01" "2023-01-02" 0 1 dfEx).1 =
        (Except.ok (some d), []) ∧
      d.getCol? "datetime" = some (dfEx.index.map some) ∧
      d.nrows = dfEx.nrows ∧
      ∀ m : String, m ≠ "datetime" → d.getCol? m = dfEx.getCol? m)) :=
  ⟨rfl, rfl, rfl, rfl, rfl,
    interest_datetime_column gtEx dfEx "2023-01-01" "2023-01-02" 0 1
      ("2023", "01", "01") ("2023", "01", "02") 2023 1 1 2023 1 2
      rfl rfl rfl rfl rfl⟩

/-- C5: for every non-empty raw response, interestByRegion produces a table
containing a geoName column equal to the raw response's region-name row key,
with row count preserved and every other column carried over unchanged. -/
theorem interestByRegion_geoName (s : GoogleTrends) (region : String)
    (ilv igc : Bool) (resp : DataFrame) (hne : resp.emptyDF = false) :
    ∃ d, (s.interestByRegion region ilv igc resp).1 = (Except.ok (some d), []) ∧
      d.getCol? "geoName" = some (resp.index.map some) ∧
      d.nrows = resp.nrows ∧
      ∀ m : String, m ≠ "geoName" → d.getCol? m = resp.getCol? m := by
  refine ⟨promoteIndex resp "geoName", ?_, promoteIndex_getCol_self resp "geoName",
    promoteIndex_nrows resp "geoName", fun m hm => promoteIndex_getCol_ne resp hm⟩
  simp [GoogleTrends.interestByRegion, check_if_valid_data, hne]

/-- Witness for C5 at a concrete two-region response. -/
theorem interestByRegion_geoName_witness :
    dfRegionEx.emptyDF = false ∧
    (∃ d, (gtEx.interestByRegion "COUNTRY" false true dfRegionEx).1 =
        (Except.ok (some d), []) ∧
      d.getCol? "geoName" = some (dfRegionEx.index.map some) ∧
      d.nrows = dfRegionEx.nrows ∧
      ∀ m : String, m ≠ "geoName" → d.getCol? m = dfRegionEx.getCol? m) :=
  ⟨rfl, interestByRegion_geoName gtEx "COUNTRY" false true dfRegionEx rfl⟩

/-- C1 as stated is refuted at the suggestions operation: for the empty record
list the raw table is empty, yet the operation raises a KeyError while
dropping the mid column — no diagnostic notice is printed and the no-result
value is not yielded. -/
theorem empty_suggestions_raises_on_empty_list :
    (dfFromRecords []).emptyDF = true ∧
    (gtEx.suggestions []).1 = (Except.error (PyErr.keyError "mid"), []) ∧
    (gtEx.suggestions []).1 ≠ (Except.ok none, [noResultsNotice]) := by
  refine ⟨rfl, rfl, fun hcontra => ?_⟩
  exact Except.noConfusion (congrArg Prod.fst hcontra)

/-- C1 amended: for interestOverTime, historicalHourlyInterest,
interestByRegion, trendingSearches and topCharts an empty raw table yields the
diagnostic notice plus the explicit no-result value and a non-empty raw table
yields a table; for suggestions the same contract applies to the table built
from the returned records once the mid-column drop has succeeded (an empty
record list instead makes that drop raise). -/
theorem empty_raw_response_policy (s : GoogleTrends) (resp : DataFrame)
    (sd ed : String) (hrs hre : Int) (ps pe : String × String × String)
    (y1 m1 d1 y2 m2 d2 : Int)
    (region country : String) (ilv igc : Bool) (year : Int)
    (recs : List (List (String × Cell))) (dd : DataFrame)
    (kw : String) (rest : List String)
    (hkw : s.keyword_list = kw :: rest)
    (hp1 : pyDateParts sd = Except.ok ps) (hi1 : pyInt3 ps = Except.ok (y1, m1, d1))
    (hp2 : pyDateParts ed = Except.ok pe) (hi2 : pyInt3 pe = Except.ok (y2, m2, d2)) :
    (resp.emptyDF = true →
      (s.interestOverTime resp).1 = (Except.ok none, [noResultsNotice]) ∧
      (s.historicalHourlyInterest sd ed hrs hre resp).1 = (Except.ok none, [noResultsNotice]) ∧
      (s.interestByRegion region ilv igc resp).1 = (Except.ok none, [noResultsNotice]) ∧
      (s.trendingSearches country resp).1 = (Except.ok none, [noResultsNotice]) ∧
      (s.topCharts year resp).1 = (Except.ok none, [noResultsNotice])) ∧
    (resp.emptyDF = false →
      (∃ d, (s.interestOverTime resp).1 = (Except.ok (some d), [])) ∧
      (∃ d, (s.historicalHourlyInterest sd ed hrs hre resp).1 = (Except.ok (some d), [])) ∧
      (∃ d, (s.interestByRegion region ilv igc resp).1 = (Except.ok (some d), [])) ∧
      (s.trendingSearches country resp).1 = (Except.ok (some resp), []) ∧
      (s.topCharts year resp).1 = (Except.ok (some resp), [])) ∧
    ((dfFromRecords recs).dropCols ["mid"] = Except.ok dd →
      (dd.emptyDF = true →
        (s.suggestions recs).1 = (Except.ok none, [noResultsNotice])) ∧
      (dd.emptyDF = false →
        (s.suggestions recs).1 = (Except.ok (some dd), []))) := by
  refine ⟨fun hemp => ?_, fun hne => ?_, fun hdrop => ⟨fun hdde => ?_, fun hddn => ?_⟩⟩
  · simp [GoogleTrends.interestOverTime, GoogleTrends.historicalHourlyInterest,
      GoogleTrends.interestByRegion, GoogleTrends.trendingSearches,
      GoogleTrends.topCharts, hp1, hp2, hi1, hi2, check_if_valid_data, hemp]
  · refine ⟨⟨promoteIndex resp "datetime", ?_⟩, ⟨promoteIndex resp "datetime", ?_⟩,
      ⟨promoteIndex resp "geoName", ?_⟩, ?_, ?_⟩
    · simp [GoogleTrends.interestOverTime, check_if_valid_data, hne]
    · simp [GoogleTrends.historicalHourlyInterest, hp1, hp2, hi1, hi2,
        check_if_valid_data, hne]
    · simp [GoogleTrends.interestByRegion, check_if_valid_data, hne]
    · simp [GoogleTrends.trendingSearches, check_if_valid_data, hne]
    · simp [GoogleTrends.topCharts, check_if_valid_data, hne]
  · simp [GoogleTrends.suggestions, hkw, hdrop, check_if_valid_data, hdde]
  · simp [GoogleTrends.suggestions, hkw, hdrop, check_if_valid_data, hddn]

/-- Witness for C1 amended at the empty table, concrete dates, and a record
list whose table is empty after the mid drop. -/
theorem empty_raw_response_policy_witness :
    gtEx.keyword_list = "Pizza" :: [] ∧
    pyDateParts "2023-01-01" = Except.ok ("2023", "01", "01") ∧
    pyInt3 ("2023", "01", "01") = Except.ok (2023, 1, 1) ∧
    pyDateParts "2023-01-02" = Except.ok ("2023", "01", "02") ∧
    pyInt3 ("2023", "01", "02") = Except.ok (2023, 1, 2) ∧
    ((dfEmptyEx.emptyDF = true →
      (gtEx.interestOverTime dfEmptyEx).1 = (Except.ok none, [noResultsNotice]) ∧
      (gtEx.historicalHourlyInterest "2023-01-01" "2023-01-02" 0 1 dfEmptyEx).1 =
        (Except.ok none, [noResultsNotice]) ∧
      (gtEx.interestByRegion "COUNTRY" false true dfEmptyEx).1 =
        (Except.ok none, [noResultsNotice]) ∧
      (gtEx.trendingSearches "united_states" dfEmptyEx).1 =
        (Except.ok none, [noResultsNotice]) ∧
      (gtEx.topCharts 2022 dfEmptyEx).1 = (Except.ok none, [noResultsNotice])) ∧
    (dfEmptyEx.emptyDF = false →
      (∃ d, (gtEx.interestOverTime dfEmptyEx).1 = (Except.ok (some d), [])) ∧
      (∃ d, (gtEx.historicalHourlyInterest "2023-01-01" "2023-01-02" 0 1 dfEmptyEx).1 =
        (Except.ok (some d), [])) ∧
      (∃ d, (gtEx.interestByRegion "COUNTRY" false true dfEmptyEx).1 =
        (Except.ok (some d), [])) ∧
      (gtEx.trendingSearches "united_states" dfEmptyEx).1 =
        (Except.ok (some dfEmptyEx), []) ∧
      (gtEx.topCharts 2022 dfEmptyEx).1 = (Except.ok (some dfEmptyEx), [])) ∧
    ((dfFromRecords [[("mid", "/m/1")]]).dropCols ["mid"] =
        Except.ok (⟨["0"], []⟩ : DataFrame) →
      ((⟨["0"], []⟩ : DataFrame).emptyDF = true →
        (gtEx.suggestions [[("mid", "/m/1")]]).1 = (Except.ok none, [noResultsNotice])) ∧
      ((⟨["0"], []⟩ : DataFrame).emptyDF = false →
        (gtEx.suggestions [[("mid", "/m/1")]]).1 =
          (Except.ok (some ⟨["0"], []⟩), [])))) :=
  ⟨rfl, rfl, rfl, rfl, rfl,
    empty_raw_response_policy gtEx dfEmptyEx "2023-01-01" "2023-01-02" 0 1
      ("2023", "01", "01") ("2023", "01", "02") 2023 1 1 2023 1 2
      "COUNTRY" "united_states" false true 2022
      [[("mid", "/m/1")]] ⟨["0"], []⟩ "Pizza" [] rfl rfl rfl rfl rfl⟩

/-- C2 as stated is refuted: when the rising key is absent from the sub-mapping
for the primary keyword, the lookup happens before the guarded try region, so
relatedTopics and relatedQueries raise the KeyError instead of emitting their
notice and yielding no-result. -/
theorem related_missing_key_raises :
    (gtEx.relatedTopics respMissingRising).1 =
      (Except.error (PyErr.keyError "rising"), []) ∧
    (gtEx.relatedQueries 0 respMissingRising).1 =
      (Except.error (PyErr.keyError "rising"), []) ∧
    (gtEx.relatedTopics respMissingRising).1 ≠
      (Except.ok none, ["No results for Related topics"]) ∧
    (gtEx.relatedQueries 0 respMissingRising).1 ≠
      (Except.ok none, ["No results for Related queries"]) := by
  refine ⟨rfl, rfl, fun h => Except.noConfusion (congrArg Prod.fst h),
    fun h => Except.noConfusion (congrArg Prod.fst h)⟩

/-- C2 amended: when the primary keyword and both the rising and top keys are
present in the response mapping, any failure inside the guarded
rename/concatenate/drop region - a sub-table that is the Python value None, or
a failing column drop - is caught and converted to the notice plus no-result;
but when the keyword or one of the rising/top keys is absent from the mapping,
the lookup raises before the guarded region and the error propagates. -/
theorem related_guarded_region_policy (s : GoogleTrends) (c : Int) (resp : RelatedResp)
    (kw : String) (rest : List String) (sub : List (String × Option DataFrame))
    (rOpt tOpt : Option DataFrame) (rd td : DataFrame) (e : PyErr)
    (hkw : s.keyword_list = kw :: rest) :
    (dictGet resp kw = Except.ok sub →
      dictGet sub "rising" = Except.ok rOpt →
      dictGet sub "top" = Except.ok tOpt →
      ((rOpt = none ∨ tOpt = none →
        (s.relatedTopics resp).1 = (Except.ok none, ["No results for Related topics"]) ∧
        (s.relatedQueries c resp).1 = (Except.ok none, ["No results for Related queries"])) ∧
       (rOpt = some rd → tOpt = some td →
        ((td.renameCols topTopicRenames).concatCols
            (rd.renameCols risingTopicRenames)).dropCols ["link", "topic_mid"] =
          Except.error e →
        (s.relatedTopics resp).1 = (Except.ok none, ["No results for Related topics"])))) ∧
    (dictGet resp kw = Except.error e →
      (s.relatedTopics resp).1 = (Except.error e, []) ∧
      (s.relatedQueries c resp).1 = (Except.error e, [])) ∧
    (dictGet resp kw = Except.ok sub → dictGet sub "rising" = Except.error e →
      (s.relatedTopics resp).1 = (Except.error e, []) ∧
      (s.relatedQueries c resp).1 = (Except.error e, [])) ∧
    (dictGet resp kw = Except.ok sub → dictGet sub "rising" = Except.ok rOpt →
      dictGet sub "top" = Except.error e →
      (s.relatedTopics resp).1 = (Except.error e, []) ∧
      (s.relatedQueries c resp).1 = (Except.error e, [])) := by
  refine ⟨fun h1 h2 h3 => ⟨fun hnone => ?_, fun hr ht hdrop => ?_⟩,
    fun h1 => ?_, fun h1 h2 => ?_, fun h1 h2 h3 => ?_⟩
  · rcases hnone with hn | hn
    · subst hn
      constructor <;>
        simp [GoogleTrends.relatedTopics, GoogleTrends.relatedQueries, hkw, h1, h2, h3]
    · subst hn
      cases rOpt <;> constructor <;>
        simp [GoogleTrends.relatedTopics, GoogleTrends.relatedQueries, hkw, h1, h2, h3]
  · subst hr
    subst ht
    simp [GoogleTrends.relatedTopics, hkw, h1, h2, h3, hdrop]
  · constructor <;>
      simp [GoogleTrends.relatedTopics, GoogleTrends.relatedQueries, hkw, h1]
  · constructor <;>
      simp [GoogleTrends.relatedTopics, GoogleTrends.relatedQueries, hkw, h1, h2]
  · constructor <;>
      simp [GoogleTrends.relatedTopics, GoogleTrends.relatedQueries, hkw, h1, h2, h3]

/-- Witness for C2 amended at a response whose sub-tables are both None. -/
theorem related_guarded_region_policy_witness :
    gtEx.keyword_list = "Pizza" :: [] ∧
    dictGet respNoneSub "Pizza" = Except.ok [("rising", none), ("top", none)] ∧
    dictGet [("rising", (none : Option DataFrame)), ("top", none)] "rising" =
      Except.ok none ∧
    dictGet [("rising", (none : Option DataFrame)), ("top", none)] "top" =
      Except.ok none ∧
    ((dictGet respNoneSub "Pizza" = Except.ok [("rising", none), ("top", none)] →
      dictGet [("rising", (none : Option DataFrame)), ("top", none)] "rising" =
        Except.ok none →
      dictGet [("rising", (none : Option DataFrame)), ("top", none)] "top" =
        Except.ok none →
      (((none : Option DataFrame) = none ∨ (none : Option DataFrame) = none →
        (gtEx.relatedTopics respNoneSub).1 =
          (Except.ok none, ["No results for Related topics"]) ∧
        (gtEx.relatedQueries 0 respNoneSub).1 =
          (Except.ok none, ["No results for Related queries"])) ∧
       ((none : Option DataFrame) = some dfEmptyEx →
        (none : Option DataFrame) = some dfEmptyEx →
        ((dfEmptyEx.renameCols topTopicRenames).concatCols
            (dfEmptyEx.renameCols risingTopicRenames)).dropCols ["link", "topic_mid"] =
          Except.error (PyErr.keyError "rising") →
        (gtEx.relatedTopics respNoneSub).1 =
          (Except.ok none, ["No results for Related topics"])))) ∧
    (dictGet respNoneSub "Pizza" = Except.error (PyErr.keyError "rising") →
      (gtEx.relatedTopics respNoneSub).1 = (Except.error (PyErr.keyError "rising"), []) ∧
      (gtEx.relatedQueries 0 respNoneSub).1 =
        (Except.error (PyErr.keyError "rising"), [])) ∧
    (dictGet respNoneSub "Pizza" = Except.ok [("rising", none), ("top", none)] →
      dictGet [("rising", (none : Option DataFrame)), ("top", none)] "rising" =
        Except.error (PyErr.keyError "rising") →
      (gtEx.relatedTopics respNoneSub).1 = (Except.error (PyErr.keyError "rising"), []) ∧
      (gtEx.relatedQueries 0 respNoneSub).1 =
        (Except.error (PyErr.keyError "rising"), [])) ∧
    (dictGet respNoneSub "Pizza" = Except.ok [("rising", none), ("top", none)] →
      dictGet [("rising", (none : Option DataFrame)), ("top", none)] "rising" =
        Except.ok none →
      dictGet [("rising", (none : Option DataFrame)), ("top", none)] "top" =
        Except.error (PyErr.keyError "rising") →
      (gtEx.relatedTopics respNoneSub).1 = (Except.error (PyErr.keyError "rising"), []) ∧
      (gtEx.relatedQueries 0 respNoneSub).1 =
        (Except.error (PyErr.keyError "rising"), []))) :=
  ⟨rfl, rfl, rfl, rfl,
    related_guarded_region_policy gtEx 0 respNoneSub "Pizza" []
      [("rising", none), ("top", none)] none none dfEmptyEx dfEmptyEx
      (PyErr.keyError "rising") rfl⟩

/-- Dict lookup hits the first entry when its key matches. -/
theorem dictGet_cons_self {α : Type} (k : String) (v : α) (t : List (String × α)) :
    dictGet ((k, v) :: t) k = Except.ok v := by
  have hfind : ((k, v) :: t).find? (fun p => p.1 = k) = some (k, v) :=
    List.find?_cons_of_pos _ (by simp)
  simp [dictGet, hfind]

/-- Padding a column no longer than n yields exactly n cells. -/
theorem padCol_length {xs : List (Option Cell)} {n : Nat} (h : xs.length ≤ n) :
    (padCol xs n).length = n := by
  simp [padCol]
  omega

/-- relatedTopics on the success path: present keyword, present sub-tables,
successful drop. -/
theorem relatedTopics_ok (s : GoogleTrends) (resp : RelatedResp)
    (kw : String) (rest : List String) (sub : List (String × Option DataFrame))
    (rising top d : DataFrame)
    (hkw : s.keyword_list = kw :: rest)
    (h1 : dictGet resp kw = Except.ok sub)
    (h2 : dictGet sub "rising" = Except.ok (some rising))
    (h3 : dictGet sub "top" = Except.ok (some top))
    (h4 : ((top.renameCols topTopicRenames).concatCols
        (rising.renameCols risingTopicRenames)).dropCols ["link", "topic_mid"] =
      Except.ok d) :
    (s.relatedTopics resp).1 = (Except.ok (some d), []) := by
  simp [GoogleTrends.relatedTopics, hkw, h1, h2, h3, h4]

/-- C3: for relatedTopics with a well-formed response whose top sub-table has
T rows and rising sub-table has R rows, the composed table is a side-by-side
concatenation with max(T, R) rows and absent cells left unset; overlapping
columns are renamed with the _top/_rising suffixes (so value_top and
value_rising do not collide) and the result contains neither a link nor a
topic_mid column. -/
theorem relatedTopics_composition (s : GoogleTrends) (kw : String) (rest : List String)
    (tIdx rIdx : List Cell)
    (c1 c2 c3 c4 c5 c6 c7 d1 d2 d3 d4 d5 d6 d7 : List (Option Cell))
    (hkw : s.keyword_list = kw :: rest)
    (hlen1 : c1.length = tIdx.length) (hlen2 : d1.length = rIdx.length) :
    ∃ d, (s.relatedTopics
        [(kw, [("rising", some ⟨rIdx,
            [("value", d1), ("formattedValue", d2), ("hasData", d3), ("link", d4),
             ("topic_mid", d5), ("topic_title", d6), ("topic_type", d7)]⟩),
          ("top", some ⟨tIdx,
            [("value", c1), ("formattedValue", c2), ("hasData", c3), ("link", c4),
             ("topic_mid", c5), ("topic_title", c6), ("topic_type", c7)]⟩)])]).1 =
      (Except.ok (some d), []) ∧
      d.nrows = max tIdx.length rIdx.length ∧
      d.colNames = ["value_top", "formattedValue_top", "hasData_top",
        "topic_title_top", "topic_type_top", "value_rising",
        "formattedValue_rising", "hasData_rising", "topic_title_rising",
        "topic_type_rising"] ∧
      "link" ∉ d.colNames ∧ "topic_mid" ∉ d.colNames ∧
      d.getCol? "value_top" = some (padCol c1 (max tIdx.length rIdx.length)) ∧
      d.getCol? "value_rising" = some (padCol d1 (max tIdx.length rIdx.length)) ∧
      (padCol c1 (max tIdx.length rIdx.length)).length =
        max tIdx.length rIdx.length ∧
      (padCol d1 (max tIdx.length rIdx.length)).length =
        max tIdx.length rIdx.length := by
  refine ⟨⟨(List.range (max tIdx.length rIdx.length)).map (fun i => toString i),
    [("value_top", padCol c1 (max tIdx.length rIdx.length)),
     ("formattedValue_top", padCol c2 (max tIdx.length rIdx.length)),
     ("hasData_top", padCol c3 (max tIdx.length rIdx.length)),
     ("topic_title_top", padCol c6 (max tIdx.length rIdx.length)),
     ("topic_type_top", padCol c7 (max tIdx.length rIdx.length)),
     ("value_rising", padCol d1 (max tIdx.length rIdx.length)),
     ("formattedValue_rising", padCol d2 (max tIdx.length rIdx.length)),
     ("hasData_rising", padCol d3 (max tIdx.length rIdx.length)),
     ("topic_title_rising", padCol d6 (max tIdx.length rIdx.length)),
     ("topic_type_rising", padCol d7 (max tIdx.length rIdx.length))]⟩,
    relatedTopics_ok s _ kw rest _ _ _ _ hkw (dictGet_cons_self kw _ []) rfl rfl rfl,
    ?_, rfl, ?_, ?_, rfl, rfl,
    padCol_length (hlen1 ▸ Nat.le_max_left tIdx.length rIdx.length),
    padCol_length (hlen2 ▸ Nat.le_max_right tIdx.length rIdx.length)⟩
  · simp [DataFrame.nrows]
  · simp [DataFrame.colNames]
  · simp [DataFrame.colNames]

/-- Witness for C3 at a concrete two-row top table and one-row rising table. -/
theorem relatedTopics_composition_witness :
    gtEx.keyword_list = "Pizza" :: [] ∧
    ([some "100", some "50"] : List (Option Cell)).length = (["0", "1"] : List Cell).length ∧
    ([some "9"] : List (Option Cell)).length = (["0"] : List Cell).length ∧
    (∃ d, (gtEx.relatedTopics respWellFormed).1 = (Except.ok (some d), []) ∧
      d.nrows = 2 ∧
      d.colNames = ["value_top", "formattedValue_top", "hasData_top",
        "topic_title_top", "topic_type_top", "value_rising",
        "formattedValue_rising", "hasData_rising", "topic_title_rising",
        "topic_type_rising"] ∧
      "link" ∉ d.colNames ∧ "topic_mid" ∉ d.colNames ∧
      d.getCol? "value_top" = some (padCol [some "100", some "50"] 2) ∧
      d.getCol? "value_rising" = some (padCol [some "9"] 2) ∧
      (padCol ([some "100", some "50"] : List (Option Cell)) 2).length = 2 ∧
      (padCol ([some "9"] : List (Option Cell)) 2).length = 2) :=
  ⟨rfl, rfl, rfl,
    relatedTopics_composition gtEx "Pizza" [] ["0", "1"] ["0"]
      [some "100", some "50"] [some "100", some "50"] [some "True", some "True"]
      [some "l1", some "l2"] [some "m1", some "m2"] [some "t1", some "t2"]
      [some "ty1", some "ty2"]
      [some "9"] [some "9"] [some "True"] [some "r1"] [some "rm1"] [some "rt1"]
      [some "rty1"]
      rfl rfl rfl⟩

/-- C6: historicalHourlyInterest decomposes its start and end date strings of
the form YYYY-MM-DD into integer year/month/day components - for 2023-01-01
and 2023-01-02 giving (2023, 1, 1) and (2023, 1, 2) - and forwards exactly
those components with the start and end hours and an inter-request delay of
zero to the underlying historical request. -/
theorem historical_date_decomposition (s : GoogleTrends) (sd ed : String)
    (hrs hre : Int) (resp : DataFrame) (ps pe : String × String × String)
    (y1 m1 d1 y2 m2 d2 : Int)
    (hp1 : pyDateParts sd = Except.ok ps) (hi1 : pyInt3 ps = Except.ok (y1, m1, d1))
    (hp2 : pyDateParts ed = Except.ok pe) (hi2 : pyInt3 pe = Except.ok (y2, m2, d2)) :
    (s.historicalHourlyInterest sd ed hrs hre resp).2.pytrends =
      s.pytrends ++
        [ClientCall.getHistoricalInterest s.keyword_list y1 m1 d1 hrs y2 m2 d2 hre
          s.category s.geo s.gprop 0,
         ClientCall.interestOverTimeCall] ∧
    pyDateParts "2023-01-01" = Except.ok ("2023", "01", "01") ∧
    pyInt3 ("2023", "01", "01") = Except.ok (2023, 1, 1) ∧
    pyDateParts "2023-01-02" = Except.ok ("2023", "01", "02") ∧
    pyInt3 ("2023", "01", "02") = Except.ok (2023, 1, 2) := by
  refine ⟨?_, rfl, rfl, rfl, rfl⟩
  simp [GoogleTrends.historicalHourlyInterest, hp1, hp2, hi1, hi2]

/-- Witness for C6 at the documented concrete dates. -/
theorem historical_date_decomposition_witness :
    pyDateParts "2023-01-01" = Except.ok ("2023", "01", "01") ∧
    pyInt3 ("2023", "01", "01") = Except.ok (2023, 1, 1) ∧
    pyDateParts "2023-01-02" = Except.ok ("2023", "01", "02") ∧
    pyInt3 ("2023", "01", "02") = Except.ok (2023, 1, 2) ∧
    ((gtEx.historicalHourlyInterest "2023-01-01" "2023-01-02" 0 1 dfEx).2.pytrends =
      gtEx.pytrends ++
        [ClientCall.getHistoricalInterest gtEx.keyword_list 2023 1 1 0 2023 1 2 1
          gtEx.category gtEx.geo gtEx.gprop 0,
         ClientCall.interestOverTimeCall] ∧
     pyDateParts "2023-01-01" = Except.ok ("2023", "01", "01") ∧
     pyInt3 ("2023", "01", "01") = Except.ok (2023, 1, 1) ∧
     pyDateParts "2023-01-02" = Except.ok ("2023", "01", "02") ∧
     pyInt3 ("2023", "01", "02") = Except.ok (2023, 1, 2)) :=
  ⟨rfl, rfl, rfl, rfl,
    historical_date_decomposition gtEx "2023-01-01" "2023-01-02" 0 1 dfEx
      ("2023", "01", "01") ("2023", "01", "02") 2023 1 1 2023 1 2
      rfl rfl rfl rfl⟩

/-- C7: for every pair of category-override values and identical client
responses, relatedQueries yields the same result - the category parameter is
accepted but never forwarded (the underlying related_queries call takes no
arguments), so the output does not depend on it. -/
theorem relatedQueries_category_unused (s : GoogleTrends) (c1 c2 : Int)
    (resp : RelatedResp) :
    s.relatedQueries c1 resp = s.relatedQueries c2 resp := rfl

/-- C8 as stated is refuted: constructing a session with an empty keyword
list does not fail fast - the payload-construction request is still issued,
with the empty list forwarded to it. -/
theorem init_empty_keywords_builds_payload :
    (GoogleTrends.init [] "today 5-y" "US" "en-US" 0 "").pytrends =
      [ClientCall.trendReq "en-US" 360 2 10 25,
       ClientCall.buildPayload [] 0 "today 5-y" "US" ""] := rfl

/-- C8 amended: construction with an empty keyword list is not rejected; the
session stores the empty list and forwards it to the payload-construction
request (the non-empty precondition is not enforced). -/
theorem init_empty_keywords_not_rejected (timeframe geo host_language : String)
    (category : Int) (gprop : String) :
    (GoogleTrends.init [] timeframe geo host_language category gprop).keyword_list =
      [] ∧
    (GoogleTrends.init [] timeframe geo host_language category gprop).pytrends =
      [ClientCall.trendReq host_language 360 2 10 25,
       ClientCall.buildPayload [] category timeframe geo gprop] := ⟨rfl, rfl⟩


/-- A successful column drop removes every occurrence of each dropped name. -/
theorem dropCols_not_mem {df : DataFrame} {names : List String} {d : DataFrame}
    (h : df.dropCols names = Except.ok d) {n : String} (hn : n ∈ names) :
    n ∉ d.colNames := by
  unfold DataFrame.dropCols at h
  by_cases hall : names.all (fun n => df.cols.any (fun c => c.1 = n))
  · rw [if_pos hall] at h
    injection h with h
    subst h
    intro hmem
    simp only [DataFrame.colNames, List.mem_map] at hmem
    obtain ⟨c, hc, hcn⟩ := hmem
    rw [List.mem_filter] at hc
    have hcont : names.contains c.1 = false := by
      simpa using hc.2
    rw [hcn] at hcont
    simp [List.contains, List.elem_iff, hn] at hcont
  · rw [if_neg hall] at h
    exact Except.noConfusion h

/-- C9: for every list of suggestion records returned by the external client,
whenever suggestions yields a table, that table has no mid column. -/
theorem suggestions_no_mid (s : GoogleTrends) (recs : List (List (String × Cell)))
    (d : DataFrame) (notices : List String)
    (h : (s.suggestions recs).1 = (Except.ok (some d), notices)) :
    "mid" ∉ d.colNames := by
  unfold GoogleTrends.suggestions at h
  cases hkw : s.keyword_list with
  | nil =>
    rw [hkw] at h
    exact Except.noConfusion (congrArg Prod.fst h)
  | cons kw rest =>
    rw [hkw] at h
    cases hdrop : (dfFromRecords recs).dropCols ["mid"] with
    | error e =>
      rw [hdrop] at h  -- placeholder, fixed below if needed
      exact Except.noConfusion (congrArg Prod.fst h)
    | ok dd =>
      rw [hdrop] at h
      by_cases hdd : dd.emptyDF
      · simp [check_if_valid_data, hdd] at h
      · simp [check_if_valid_data, hdd] at h
        rw [← h.1]
        exact dropCols_not_mem hdrop (by simp)


/-- Witness for C9 at a record list carrying a mid field. -/
theorem suggestions_no_mid_witness :
    (gtEx.suggestions [[("mid", "/m/1"), ("title", "Pizza")]]).1 =
      (Except.ok (some ⟨["0"], [("title", [some "Pizza"])]⟩), []) ∧
    "mid" ∉ (⟨["0"], [("title", [some "Pizza"])]⟩ : DataFrame).colNames :=
  ⟨rfl, suggestions_no_mid gtEx [[("mid", "/m/1"), ("title", "Pizza")]]
    ⟨["0"], [("title", [some "Pizza"])]⟩ [] rfl⟩

/-- C10: every operation on a session leaves the configuration fields
(keyword_list, timeframe, geo, host_language, category, gprop) unchanged;
only the client handle state changes, and only by appending issued calls. -/
theorem ops_preserve_config (s : GoogleTrends) (resp : DataFrame)
    (sd ed : String) (hrs hre : Int) (region country : String)
    (ilv igc : Bool) (year c : Int) (rresp : RelatedResp)
    (recs : List (List (String × Cell))) (tax : List (String × Cell)) :
    ((s.interestOverTime resp).2.config = s.config ∧
      ∃ t, (s.interestOverTime resp).2.pytrends = s.pytrends ++ t) ∧
    ((s.historicalHourlyInterest sd ed hrs hre resp).2.config = s.config ∧
      ∃ t, (s.historicalHourlyInterest sd ed hrs hre resp).2.pytrends =
        s.pytrends ++ t) ∧
    ((s.interestByRegion region ilv igc resp).2.config = s.config ∧
      ∃ t, (s.interestByRegion region ilv igc resp).2.pytrends = s.pytrends ++ t) ∧
    ((s.relatedTopics rresp).2.config = s.config ∧
      ∃ t, (s.relatedTopics rresp).2.pytrends = s.pytrends ++ t) ∧
    ((s.relatedQueries c rresp).2.config = s.config ∧
      ∃ t, (s.relatedQueries c rresp).2.pytrends = s.pytrends ++ t) ∧
    ((s.trendingSearches country resp).2.config = s.config ∧
      ∃ t, (s.trendingSearches country resp).2.pytrends = s.pytrends ++ t) ∧
    ((s.topCharts year resp).2.config = s.config ∧
      ∃ t, (s.topCharts year resp).2.pytrends = s.pytrends ++ t) ∧
    ((s.suggestions recs).2.config = s.config ∧
      ∃ t, (s.suggestions recs).2.pytrends = s.pytrends ++ t) ∧
    ((s.categoriesOp tax).2.config = s.config ∧
      ∃ t, (s.categoriesOp tax).2.pytrends = s.pytrends ++ t) := by
  refine ⟨⟨rfl, ⟨[ClientCall.interestOverTimeCall], rfl⟩⟩, ?_,
    ⟨rfl, ⟨[ClientCall.interestByRegionCall region ilv igc], rfl⟩⟩,
    ⟨rfl, ⟨[ClientCall.relatedTopicsCall], rfl⟩⟩,
    ⟨rfl, ⟨[ClientCall.relatedQueriesCall], rfl⟩⟩,
    ⟨rfl, ⟨[ClientCall.trendingSearchesCall country], rfl⟩⟩,
    ⟨rfl, ⟨[ClientCall.topChartsCall year s.geo], rfl⟩⟩,
    ?_,
    ⟨rfl, ⟨[ClientCall.categoriesCall], rfl⟩⟩⟩
  · cases hp1 : pyDateParts sd with
    | error e =>
      simp [GoogleTrends.historicalHourlyInterest, hp1, GoogleTrends.config]
    | ok ps =>
      cases hp2 : pyDateParts ed with
      | error e =>
        simp [GoogleTrends.historicalHourlyInterest, hp1, hp2, GoogleTrends.config]
      | ok pe =>
        cases hi1 : pyInt3 ps with
        | error e =>
          simp [GoogleTrends.historicalHourlyInterest, hp1, hp2, hi1,
            GoogleTrends.config]
        | ok q1 =>
          obtain ⟨y1, m1, d1⟩ := q1
          cases hi2 : pyInt3 pe with
          | error e =>
            simp [GoogleTrends.historicalHourlyInterest, hp1, hp2, hi1, hi2,
              GoogleTrends.config]
          | ok q2 =>
            obtain ⟨y2, m2, d2⟩ := q2
            simp [GoogleTrends.historicalHourlyInterest, hp1, hp2, hi1, hi2,
              GoogleTrends.config]
  · cases hkw : s.keyword_list with
    | nil => simp [GoogleTrends.suggestions, hkw, GoogleTrends.config]
    | cons kw rest => simp [GoogleTrends.suggestions, hkw, GoogleTrends.config]


end GTrends
